import Mathlib

/-!
Verification of the Finance-IT question generation and selection engine.

Shallow embedding of `QuestionService` (MCQ pool, numeric templates,
selector, batch producer) from the repository's source.  JavaScript
numbers are modelled as exact rationals (`ℚ`); `Math.random()` draws are
an explicit oracle of rationals in `[0, 1)`; `Date.now()` is an explicit
natural-number timestamp; the `do … while` re-roll loops are modelled
with explicit fuel, returning `none` on fuel exhaustion.
-/

/-- JS `Math.round`: round half towards positive infinity, `⌊x + 1/2⌋`. -/
def jsRound (x : ℚ) : ℤ := ⌊x + 1 / 2⌋

/-- Source `round2`: `Math.round(n * 100) / 100`. -/
def round2 (x : ℚ) : ℚ := (jsRound (x * 100) : ℚ) / 100

/-- Source `randInt`: `Math.floor(Math.random() * (max - min + 1)) + min`,
with `u` the `Math.random()` draw. -/
def randInt (lo hi : ℤ) (u : ℚ) : ℤ := ⌊u * ((hi : ℚ) - (lo : ℚ) + 1)⌋ + lo

/-- A `Math.random()` result: a rational in `[0, 1)`. -/
def unit01 (u : ℚ) : Prop := 0 ≤ u ∧ u < 1

/-- JS `Number.prototype.toLocaleString` grouping step, on a reversed
digit list: after every three digits insert a comma when more digits follow. -/
def groupRev : List Char → List Char
  | c1 :: c2 :: c3 :: c4 :: rest => c1 :: c2 :: c3 :: ',' :: groupRev (c4 :: rest)
  | l => l

/-- JS `n.toLocaleString()` for a non-negative integer rendered in the
default locale: decimal digits with thousands separators. -/
def toLocaleString (n : ℕ) : String :=
  String.mk ((groupRev (Nat.repr n).data.reverse).reverse)

/-- Does `p` occur at the start of `l`? -/
def startsChars : List Char → List Char → Bool
  | [], _ => true
  | _ :: _, [] => false
  | a :: as, b :: bs => a == b && startsChars as bs

/-- Does `p` occur as a contiguous run somewhere in `l`? -/
def occursChars (p : List Char) : List Char → Bool
  | [] => startsChars p []
  | l@(_ :: t) => startsChars p l || occursChars p t

/-- Whether `sub` occurs as a contiguous substring of `t`. -/
def strContains (t sub : String) : Bool := occursChars sub.data t.data

-- ── Data model (src/types/questions.ts) ─────────────────────────────────────

/-- Model of `MCQQuestion` from src/types/questions.ts (the `type: "mcq"` literal
discriminator is represented by the Lean type itself). -/
structure MCQQuestion where
  id : String
  question : String
  options : List String
  correctIndex : ℕ
deriving DecidableEq, Inhabited, Repr

/-- Model of `GeneratedQuestionResult` from src/types/questions.ts; `tolerance` is
optional in the source (`tolerance?: number`). -/
structure GeneratedQuestionResult where
  questionText : String
  correctAnswer : ℚ
  tolerance : Option ℚ
deriving DecidableEq, Inhabited, Repr

/-- Model of `GeneratedQuestionTemplate` from src/types/questions.ts.  The
generator's `Math.random()` calls are supplied as the oracle `ℕ → ℚ`
(the `k`-th draw of the invocation). -/
structure GeneratedQuestionTemplate where
  id : String
  template : String
  generator : (ℕ → ℚ) → GeneratedQuestionResult

instance : Inhabited GeneratedQuestionTemplate :=
  ⟨{ id := "", template := "", generator := fun _ => default }⟩

/-- Model of `ResolvedQuestion` from src/types/questions.ts: MCQ variant or
resolved numeric variant. -/
inductive ResolvedQuestion where
  | mcq (id question : String) (options : List String) (correctIndex : ℕ)
  | numeric (id questionText : String) (correctAnswer tolerance : ℚ)
deriving DecidableEq, Inhabited, Repr

/-- The identifier of a resolved question. -/
def ResolvedQuestion.qid : ResolvedQuestion → String
  | .mcq id _ _ _ => id
  | .numeric id _ _ _ => id

/-- Is the resolved question the numeric variant? -/
def ResolvedQuestion.isNumeric : ResolvedQuestion → Bool
  | .mcq _ _ _ _ => false
  | .numeric _ _ _ _ => true

-- ── Static MCQ question pool ────────────────────────────────────────────────

/-- The static `MCQ_POOL` of the question service. -/
def MCQ_POOL : List MCQQuestion :=
  [ { id := "mcq-1"
      question := "If interest rates rise, what typically happens to bond prices?"
      options := ["They increase", "They decrease", "They stay the same", "They become volatile"]
      correctIndex := 1 },
    { id := "mcq-2"
      question := "What does \"diversification\" primarily help reduce?"
      options := ["Tax liability", "Unsystematic risk", "Inflation", "Transaction costs"]
      correctIndex := 1 },
    { id := "mcq-3"
      question := "Which financial statement shows a company's revenues and expenses?"
      options := ["Balance Sheet", "Cash Flow Statement", "Income Statement", "Statement of Equity"]
      correctIndex := 2 },
    { id := "mcq-4"
      question := "What is the \"Rule of 72\" used to estimate?"
      options := ["Time to double an investment", "Maximum portfolio loss", "Optimal asset allocation", "Tax deductions"]
      correctIndex := 0 },
    { id := "mcq-5"
      question := "A P/E ratio compares a stock's price to its:"
      options := ["Revenue", "Earnings per share", "Dividends", "Book value"]
      correctIndex := 1 },
    { id := "mcq-6"
      question := "Which type of fund typically has the lowest management fees?"
      options := ["Hedge fund", "Mutual fund", "Index fund", "Private equity fund"]
      correctIndex := 2 },
    { id := "mcq-7"
      question := "What does GDP stand for?"
      options := ["Gross Domestic Product", "General Domestic Pricing", "Growth Demand Percentage", "Gross Demand Profit"]
      correctIndex := 0 },
    { id := "mcq-8"
      question := "What is a \"bear market\"?"
      options := ["A market rising by 20% or more", "A market declining by 20% or more", "A market with high volatility", "A market with low trading volume"]
      correctIndex := 1 },
    { id := "mcq-9"
      question := "Which asset is generally considered the safest?"
      options := ["Corporate bonds", "Stocks", "U.S. Treasury bills", "Cryptocurrency"]
      correctIndex := 2 },
    { id := "mcq-10"
      question := "Compound interest differs from simple interest because it:"
      options := ["Uses a lower rate", "Is calculated only annually", "Earns interest on accumulated interest", "Applies only to savings accounts"]
      correctIndex := 2 },
    { id := "mcq-11"
      question := "What does an ETF stand for?"
      options := ["Electronic Transfer Fund", "Exchange-Traded Fund", "Equity Trust Fund", "Estimated Tax Filing"]
      correctIndex := 1 },
    { id := "mcq-12"
      question := "Inflation causes the purchasing power of money to:"
      options := ["Increase", "Decrease", "Remain unchanged", "Fluctuate randomly"]
      correctIndex := 1 } ]

-- ── Numeric question templates ──────────────────────────────────────────────

/-- Body of the `num-compound-interest` generator after its three
`randInt` draws (`principal`, `rate`, `years`). -/
def compoundInterestBody (principal rate years : ℤ) : GeneratedQuestionResult :=
  let answer := round2 ((principal : ℚ) * (1 + (rate : ℚ) / 100) ^ years.toNat)
  { questionText :=
      "You invest $" ++ toLocaleString principal.toNat ++ " at " ++ Int.repr rate ++
        "% annual compound interest. How much will you have after " ++ Int.repr years ++
        " year" ++ (if 1 < years then "s" else "") ++ "?"
    correctAnswer := answer
    tolerance := some (answer * (1 / 100)) }

/-- Body of the `num-simple-interest` generator after its draws. -/
def simpleInterestBody (principal rate years : ℤ) : GeneratedQuestionResult :=
  let interest := round2 ((principal : ℚ) * ((rate : ℚ) / 100) * (years : ℚ))
  let total := (principal : ℚ) + interest
  { questionText :=
      "You deposit $" ++ toLocaleString principal.toNat ++ " in an account earning " ++
        Int.repr rate ++ "% simple interest per year. What is the total amount after " ++
        Int.repr years ++ " year" ++ (if 1 < years then "s" else "") ++ "?"
    correctAnswer := total
    tolerance := some (total * (1 / 100)) }

/-- Body of the `num-rule-of-72` generator after its draw (`rate`). -/
def ruleOf72Body (rate : ℤ) : GeneratedQuestionResult :=
  let answer := round2 (72 / (rate : ℚ))
  { questionText :=
      "Using the Rule of 72, approximately how many years will it take to double your money at a " ++
        Int.repr rate ++ "% annual return? (Round to the nearest whole number)"
    correctAnswer := (jsRound answer : ℚ)
    tolerance := some 1 }

/-- Body of the `num-future-value-annuity` generator after its draws
(`monthly`, `rate`, `years`).  Note the monthly amount is interpolated
plainly (`toString`), not via `toLocaleString`. -/
def futureValueBody (monthly rate years : ℤ) : GeneratedQuestionResult :=
  let r := (rate : ℚ) / 100 / 12
  let n := years * 12
  let fv := round2 ((monthly : ℚ) * (((1 + r) ^ n.toNat - 1) / r))
  { questionText :=
      "You save $" ++ Int.repr monthly ++ " per month for " ++ Int.repr years ++
        " years at " ++ Int.repr rate ++
        "% annual interest (compounded monthly). What is the total future value?"
    correctAnswer := fv
    tolerance := some (fv * (1 / 100)) }

/-- The `num-compound-interest` template. -/
def numCompoundInterest : GeneratedQuestionTemplate :=
  { id := "num-compound-interest"
    template := "Compound interest calculation"
    generator := fun u =>
      compoundInterestBody (randInt 1 50 (u 0) * 1000) (randInt 2 12 (u 1)) (randInt 1 10 (u 2)) }

/-- The `num-simple-interest` template. -/
def numSimpleInterest : GeneratedQuestionTemplate :=
  { id := "num-simple-interest"
    template := "Simple interest calculation"
    generator := fun u =>
      simpleInterestBody (randInt 1 20 (u 0) * 1000) (randInt 3 10 (u 1)) (randInt 1 5 (u 2)) }

/-- The `num-rule-of-72` template. -/
def numRuleOf72 : GeneratedQuestionTemplate :=
  { id := "num-rule-of-72"
    template := "Rule of 72 estimation"
    generator := fun u => ruleOf72Body (randInt 2 12 (u 0)) }

/-- The `num-future-value-annuity` template. -/
def numFutureValueAnnuity : GeneratedQuestionTemplate :=
  { id := "num-future-value-annuity"
    template := "Future value of monthly savings"
    generator := fun u =>
      futureValueBody (randInt 1 10 (u 0) * 100) (randInt 4 10 (u 1)) (randInt 2 10 (u 2)) }

/-- The `NUMERIC_TEMPLATES` catalog of the question service. -/
def NUMERIC_TEMPLATES : List GeneratedQuestionTemplate :=
  [numCompoundInterest, numSimpleInterest, numRuleOf72, numFutureValueAnnuity]

-- ── Question selection logic ────────────────────────────────────────────────

/-- The external effects one `getNextQuestion` call can observe:
the category draw (`Math.random() < 0.6`), the re-roll draws, the
generator's draws, and `Date.now()`. -/
structure CallEnv where
  categoryDraw : ℚ
  idxDraws : ℕ → ℚ
  genDraws : ℕ → ℚ
  now : ℕ

/-- All randomness in the call environment lies in `[0, 1)`. -/
def CallEnv.valid (env : CallEnv) : Prop :=
  unit01 env.categoryDraw ∧ (∀ k, unit01 (env.idxDraws k)) ∧ ∀ k, unit01 (env.genDraws k)

/-- The `do … while` re-roll loop of `getNextQuestion`, for a catalog of
`n` entries whose `i`-th identifier is `idAt i`: draw
`randInt(0, n - 1)`, repeat while the drawn identifier equals
`lastQuestionId` and the catalog has more than one entry.  `start` indexes
into the draw oracle; `fuel` bounds the number of iterations (`none` on
exhaustion). -/
def selectIdx (n : ℕ) (idAt : ℕ → String) (lastQuestionId : Option String)
    (draws : ℕ → ℚ) : ℕ → ℕ → Option ℕ
  | _, 0 => none
  | start, fuel + 1 =>
    let i := (randInt 0 ((n : ℤ) - 1) (draws start)).toNat
    if some (idAt i) = lastQuestionId ∧ 1 < n then
      selectIdx n idAt lastQuestionId draws (start + 1) fuel
    else
      some i

/-- Source `getNextQuestion`, parametrised by the pool and template catalog
(the source closes over the module-level constants; see
`getNextQuestion` below for the shipped instantiation).  Returns the
resolved question together with the updated `lastQuestionId`. -/
def getNextQuestionWith (pool : List MCQQuestion)
    (templates : List GeneratedQuestionTemplate) (env : CallEnv) (fuel : ℕ)
    (lastQuestionId : Option String) : Option (ResolvedQuestion × Option String) :=
  if env.categoryDraw < 6 / 10 then
    match selectIdx pool.length (fun j => (pool.getD j default).id) lastQuestionId
        env.idxDraws 0 fuel with
    | none => none
    | some i =>
      let question := pool.getD i default
      some (ResolvedQuestion.mcq question.id question.question question.options
              question.correctIndex,
            some question.id)
  else
    match selectIdx templates.length (fun j => (templates.getD j default).id) lastQuestionId
        env.idxDraws 0 fuel with
    | none => none
    | some i =>
      let template := templates.getD i default
      let generated := template.generator env.genDraws
      some (ResolvedQuestion.numeric (template.id ++ "-" ++ Nat.repr env.now)
              generated.questionText generated.correctAnswer
              (generated.tolerance.getD (generated.correctAnswer * (1 / 100))),
            some template.id)

/-- Source `getNextQuestion` over the shipped catalogs. -/
def getNextQuestion (env : CallEnv) (fuel : ℕ) (lastQuestionId : Option String) :
    Option (ResolvedQuestion × Option String) :=
  getNextQuestionWith MCQ_POOL NUMERIC_TEMPLATES env fuel lastQuestionId

/-- The loop body of `getQuestionBatch`: `count` sequential
`getNextQuestion` calls threading `lastQuestionId`; call `k` observes
`envs k`.  Returns the ordered questions and the final state. -/
def getQuestionBatchAux (envs : ℕ → CallEnv) (fuel : ℕ) :
    Option String → ℕ → Option (List ResolvedQuestion × Option String)
  | st, 0 => some ([], st)
  | st, n + 1 =>
    match getNextQuestion (envs 0) fuel st with
    | none => none
    | some (q, st1) =>
      match getQuestionBatchAux (fun k => envs (k + 1)) fuel st1 n with
      | none => none
      | some (qs, st2) => some (q :: qs, st2)

/-- Source `getQuestionBatch(count)`: the JS `for (let i = 0; i < count; i++)`
loop executes `max count 0` iterations, captured by `Int.toNat`. -/
def getQuestionBatch (envs : ℕ → CallEnv) (fuel : ℕ) (st : Option String)
    (count : ℤ) : Option (List ResolvedQuestion × Option String) :=
  getQuestionBatchAux envs fuel st count.toNat

/-- Source `getQuestionBatch()` with the declared default `count = 10`. -/
def getQuestionBatchDefault (envs : ℕ → CallEnv) (fuel : ℕ) (st : Option String) :
    Option (List ResolvedQuestion × Option String) :=
  getQuestionBatch envs fuel st 10

/-- Like `getQuestionBatchAux` but each emitted question is paired with
the underlying source identifier recorded in `lastQuestionId` right
after its call (pool-entry id or template id, not the synthesized
per-instance numeric id). -/
def batchTrace (envs : ℕ → CallEnv) (fuel : ℕ) :
    Option String → ℕ → Option (List (ResolvedQuestion × Option String))
  | _, 0 => some []
  | st, n + 1 =>
    match getNextQuestion (envs 0) fuel st with
    | none => none
    | some (q, st1) =>
      match batchTrace (fun k => envs (k + 1)) fuel st1 n with
      | none => none
      | some tr => some ((q, st1) :: tr)

/-- The `lastQuestionId` state after a traced batch. -/
def finalState (st : Option String) : List (ResolvedQuestion × Option String) → Option String
  | [] => st
  | p :: tr => finalState p.2 tr

-- ── Basic lemmas about the random primitives ────────────────────────────────

theorem randInt_bounds {lo hi : ℤ} {u : ℚ} (h0 : 0 ≤ u) (h1 : u < 1)
    (hle : lo ≤ hi) : lo ≤ randInt lo hi u ∧ randInt lo hi u ≤ hi := by
  have hlo : (lo : ℚ) ≤ (hi : ℚ) := by exact_mod_cast hle
  have hW : (0 : ℚ) < (hi : ℚ) - (lo : ℚ) + 1 := by linarith
  constructor
  · have hnn : (0 : ℚ) ≤ u * ((hi : ℚ) - (lo : ℚ) + 1) := mul_nonneg h0 hW.le
    have : (0 : ℤ) ≤ ⌊u * ((hi : ℚ) - (lo : ℚ) + 1)⌋ := Int.le_floor.mpr (by push_cast; exact hnn)
    unfold randInt
    omega
  · have hlt : u * ((hi : ℚ) - (lo : ℚ) + 1) < (hi : ℚ) - (lo : ℚ) + 1 := by
      calc u * ((hi : ℚ) - (lo : ℚ) + 1) < 1 * ((hi : ℚ) - (lo : ℚ) + 1) :=
            mul_lt_mul_of_pos_right h1 hW
        _ = (hi : ℚ) - (lo : ℚ) + 1 := one_mul _
    have : ⌊u * ((hi : ℚ) - (lo : ℚ) + 1)⌋ < hi - lo + 1 :=
      Int.floor_lt.mpr (by push_cast; exact hlt)
    unfold randInt
    omega

theorem selectIdx_lt (n : ℕ) (idAt : ℕ → String) (last : Option String)
    (draws : ℕ → ℚ) (hn : 0 < n) (hd : ∀ k, unit01 (draws k)) :
    ∀ fuel start i, selectIdx n idAt last draws start fuel = some i → i < n := by
  intro fuel
  induction fuel with
  | zero => intro start i h; simp [selectIdx] at h
  | succ f ih =>
    intro start i h
    rw [selectIdx] at h
    split at h
    · exact ih (start + 1) i h
    · obtain ⟨h0, h1⟩ := hd start
      have hb := @randInt_bounds 0 ((n : ℤ) - 1) (draws start) h0 h1 (by omega)
      cases h
      omega

theorem selectIdx_ne (n : ℕ) (idAt : ℕ → String) (last : Option String)
    (draws : ℕ → ℚ) (hn : 1 < n) :
    ∀ fuel start i, selectIdx n idAt last draws start fuel = some i →
      some (idAt i) ≠ last := by
  intro fuel
  induction fuel with
  | zero => intro start i h; simp [selectIdx] at h
  | succ f ih =>
    intro start i h
    rw [selectIdx] at h
    split at h
    · exact ih (start + 1) i h
    · rename_i hc
      cases h
      intro hEq
      exact hc ⟨hEq, hn⟩

theorem selectIdx_singleton (idAt : ℕ → String) (last : Option String)
    (draws : ℕ → ℚ) (start fuel : ℕ) (hf : 0 < fuel) :
    (selectIdx 1 idAt last draws start fuel).isSome := by
  cases fuel with
  | zero => omega
  | succ f =>
    rw [selectIdx]
    split
    · rename_i hc; omega
    · rfl

theorem getNextQuestion_src {env : CallEnv} {fuel : ℕ} {st : Option String}
    {q : ResolvedQuestion} {src : Option String}
    (h : getNextQuestion env fuel st = some (q, src)) : src ≠ st ∧ src.isSome := by
  unfold getNextQuestion getNextQuestionWith at h
  split at h
  · cases hsel : selectIdx MCQ_POOL.length (fun j => (MCQ_POOL.getD j default).id) st
        env.idxDraws 0 fuel with
    | none => rw [hsel] at h; cases h
    | some i =>
      rw [hsel] at h
      have hne := selectIdx_ne MCQ_POOL.length (fun j => (MCQ_POOL.getD j default).id)
        st env.idxDraws (by norm_num [MCQ_POOL]) fuel 0 i hsel
      cases h
      exact ⟨hne, rfl⟩
  · cases hsel : selectIdx NUMERIC_TEMPLATES.length
        (fun j => (NUMERIC_TEMPLATES.getD j default).id) st env.idxDraws 0 fuel with
    | none => rw [hsel] at h; cases h
    | some i =>
      rw [hsel] at h
      have hne := selectIdx_ne NUMERIC_TEMPLATES.length
        (fun j => (NUMERIC_TEMPLATES.getD j default).id) st env.idxDraws
        (by norm_num [NUMERIC_TEMPLATES]) fuel 0 i hsel
      cases h
      exact ⟨hne, rfl⟩

-- ── Batch and trace lemmas ──────────────────────────────────────────────────

theorem getQuestionBatchAux_length (fuel : ℕ) :
    ∀ (n : ℕ) (envs : ℕ → CallEnv) (st : Option String)
      (p : List ResolvedQuestion × Option String),
      getQuestionBatchAux envs fuel st n = some p → p.1.length = n := by
  intro n
  induction n with
  | zero =>
    intro envs st p h
    rw [getQuestionBatchAux] at h
    cases h
    rfl
  | succ m ih =>
    intro envs st p h
    rw [getQuestionBatchAux] at h
    cases hq : getNextQuestion (envs 0) fuel st with
    | none => rw [hq] at h; cases h
    | some qs1 =>
      rw [hq] at h
      obtain ⟨q, st1⟩ := qs1
      cases hrest : getQuestionBatchAux (fun k => envs (k + 1)) fuel st1 m with
      | none => simp [hrest] at h
      | some p2 =>
        obtain ⟨qs, st2⟩ := p2
        simp only [hrest] at h
        cases h
        simpa using ih (fun k => envs (k + 1)) st1 (qs, st2) hrest

theorem batchTrace_batch (fuel : ℕ) :
    ∀ (n : ℕ) (envs : ℕ → CallEnv) (st : Option String)
      (tr : List (ResolvedQuestion × Option String)),
      batchTrace envs fuel st n = some tr →
      getQuestionBatchAux envs fuel st n = some (tr.map Prod.fst, finalState st tr) := by
  intro n
  induction n with
  | zero =>
    intro envs st tr h
    rw [batchTrace] at h
    cases h
    rfl
  | succ m ih =>
    intro envs st tr h
    rw [batchTrace] at h
    rw [getQuestionBatchAux]
    cases hq : getNextQuestion (envs 0) fuel st with
    | none => rw [hq] at h; cases h
    | some qs1 =>
      rw [hq] at h
      obtain ⟨q, st1⟩ := qs1
      cases hrest : batchTrace (fun k => envs (k + 1)) fuel st1 m with
      | none => simp [hrest] at h
      | some tr2 =>
        simp only [hrest] at h
        cases h
        dsimp only
        rw [ih (fun k => envs (k + 1)) st1 tr2 hrest]
        rfl

theorem batchTrace_head_ne (fuel : ℕ) :
    ∀ (n : ℕ) (envs : ℕ → CallEnv) (st : Option String)
      (tr : List (ResolvedQuestion × Option String)),
      batchTrace envs fuel st n = some tr →
      ∀ p, tr.head? = some p → p.2 ≠ st := by
  intro n
  induction n with
  | zero =>
    intro envs st tr h p hp
    rw [batchTrace] at h
    cases h
    cases hp
  | succ m _ =>
    intro envs st tr h p hp
    rw [batchTrace] at h
    cases hq : getNextQuestion (envs 0) fuel st with
    | none => rw [hq] at h; cases h
    | some qs1 =>
      rw [hq] at h
      obtain ⟨q, st1⟩ := qs1
      cases hrest : batchTrace (fun k => envs (k + 1)) fuel st1 m with
      | none => simp [hrest] at h
      | some tr2 =>
        simp only [hrest] at h
        cases h
        cases hp
        exact (getNextQuestion_src hq).1

theorem batchTrace_chain (fuel : ℕ) :
    ∀ (n : ℕ) (envs : ℕ → CallEnv) (st : Option String)
      (tr : List (ResolvedQuestion × Option String)),
      batchTrace envs fuel st n = some tr →
      (∀ i, i < tr.length → (tr.getD i default).2.isSome) ∧
      ∀ i, i + 1 < tr.length → (tr.getD i default).2 ≠ (tr.getD (i + 1) default).2 := by
  intro n
  induction n with
  | zero =>
    intro envs st tr h
    rw [batchTrace] at h
    cases h
    exact ⟨fun i hi => by simp at hi, fun i hi => by simp at hi⟩
  | succ m ih =>
    intro envs st tr h
    rw [batchTrace] at h
    cases hq : getNextQuestion (envs 0) fuel st with
    | none => rw [hq] at h; cases h
    | some qs1 =>
      rw [hq] at h
      obtain ⟨q, st1⟩ := qs1
      cases hrest : batchTrace (fun k => envs (k + 1)) fuel st1 m with
      | none => simp [hrest] at h
      | some tr2 =>
        simp only [hrest] at h
        cases h
        obtain ⟨ihSome, ihAdj⟩ := ih (fun k => envs (k + 1)) st1 tr2 hrest
        constructor
        · intro i hi
          cases i with
          | zero => exact (getNextQuestion_src hq).2
          | succ j =>
            simp only [List.getD_cons_succ]
            exact ihSome j (by simpa using hi)
        · intro i hi
          cases i with
          | zero =>
            simp only [List.getD_cons_zero, List.getD_cons_succ]
            cases htr2 : tr2 with
            | nil => subst htr2; simp at hi
            | cons e rest =>
              have : e.2 ≠ st1 := by
                refine batchTrace_head_ne fuel m (fun k => envs (k + 1)) st1 tr2 hrest e ?_
                rw [htr2]; rfl
              subst htr2
              simp only [List.getD_cons_zero]
              exact fun hEq => this hEq.symm
          | succ j =>
            simp only [List.getD_cons_succ]
            exact ihAdj j (by simpa using hi)

-- ── Substring lemmas ────────────────────────────────────────────────────────

theorem startsChars_append_self (p r : List Char) : startsChars p (p ++ r) = true := by
  induction p with
  | nil => rfl
  | cons a as ih => simp [startsChars, ih]

theorem occursChars_of_starts {p l : List Char} (h : startsChars p l = true) :
    occursChars p l = true := by
  cases l with
  | nil => exact h
  | cons b t => simp [occursChars, h]

theorem occursChars_append_right {p t : List Char} (x : List Char)
    (h : occursChars p t = true) : occursChars p (x ++ t) = true := by
  induction x with
  | nil => simpa using h
  | cons a as ih => simp [occursChars, ih]

theorem occursChars_front2 (x y c : List Char) :
    occursChars (x ++ y) (x ++ (y ++ c)) = true := by
  have : x ++ (y ++ c) = (x ++ y) ++ c := (List.append_assoc x y c).symm
  rw [this]
  exact occursChars_of_starts (startsChars_append_self (x ++ y) c)

theorem occursChars_front1 (x c : List Char) : occursChars x (x ++ c) = true :=
  occursChars_of_starts (startsChars_append_self x c)

-- ── Injectivity of the decimal rendering used for timestamps ────────────────

/-- Numeric value of a decimal digit character. -/
def charVal (c : Char) : ℕ := c.toNat - 48

/-- Value of a most-significant-first decimal digit string. -/
def digitsVal (l : List Char) : ℕ := l.foldl (fun a c => 10 * a + charVal c) 0

theorem foldl_digitsVal (l : List Char) :
    ∀ a, l.foldl (fun a c => 10 * a + charVal c) a = a * 10 ^ l.length + digitsVal l := by
  induction l with
  | nil => intro a; simp [digitsVal]
  | cons c t ih =>
    intro a
    have h1 : (c :: t).foldl (fun a c => 10 * a + charVal c) a =
        t.foldl (fun a c => 10 * a + charVal c) (10 * a + charVal c) := rfl
    have h2 : digitsVal (c :: t) =
        t.foldl (fun a c => 10 * a + charVal c) (10 * 0 + charVal c) := rfl
    rw [h1, h2, ih, ih]
    simp [List.length_cons, pow_succ]
    ring

theorem charVal_digitChar {d : ℕ} (h : d < 10) : charVal (Nat.digitChar d) = d := by
  interval_cases d <;> rfl

theorem toDigitsCore_val :
    ∀ (fuel n : ℕ) (ds : List Char), n < fuel →
      digitsVal (Nat.toDigitsCore 10 fuel n ds) = n * 10 ^ ds.length + digitsVal ds := by
  intro fuel
  induction fuel with
  | zero => intro n ds h; omega
  | succ f ih =>
    intro n ds h
    have hcons : ∀ (c : Char) (l : List Char),
        digitsVal (c :: l) = charVal c * 10 ^ l.length + digitsVal l := by
      intro c l
      have h2 : digitsVal (c :: l) =
          l.foldl (fun a c => 10 * a + charVal c) (10 * 0 + charVal c) := rfl
      rw [h2, foldl_digitsVal]
      ring_nf
    simp only [Nat.toDigitsCore]
    by_cases h10 : n / 10 = 0
    · rw [if_pos h10]
      have hn10 : n < 10 := by omega
      rw [hcons, charVal_digitChar (Nat.mod_lt n (by norm_num))]
      have : n % 10 = n := Nat.mod_eq_of_lt hn10
      rw [this]
    · rw [if_neg h10]
      have hpos : 0 < n := by
        rcases Nat.eq_zero_or_pos n with h0 | h0
        · exact absurd (by simp [h0]) h10
        · exact h0
      have hlt : n / 10 < f := by
        have := Nat.div_lt_self hpos (by norm_num : 1 < 10)
        omega
      rw [ih (n / 10) (Nat.digitChar (n % 10) :: ds) hlt]
      rw [hcons, charVal_digitChar (Nat.mod_lt n (by norm_num))]
      simp only [List.length_cons, pow_succ]
      conv_rhs => rw [← Nat.div_add_mod n 10]
      ring

theorem digitsVal_toDigits (n : ℕ) : digitsVal (Nat.toDigits 10 n) = n := by
  unfold Nat.toDigits
  rw [toDigitsCore_val (n + 1) n [] (by omega)]
  simp [digitsVal]

theorem natRepr_injective : Function.Injective Nat.repr := by
  intro a b h
  have hdata := congrArg String.data h
  have hl : Nat.toDigits 10 a = Nat.toDigits 10 b := by
    simpa [Nat.repr, List.asString] using hdata
  have := congrArg digitsVal hl
  rwa [digitsVal_toDigits, digitsVal_toDigits] at this

theorem strAppend_left_cancel {s a b : String} (h : s ++ a = s ++ b) : a = b := by
  have hdata := congrArg String.data h
  simp only [String.data_append] at hdata
  exact String.ext (List.append_cancel_left hdata)

-- ── Concrete evaluation lemmas for witness environments ─────────────────────

theorem randInt_zero (lo hi : ℤ) : randInt lo hi 0 = lo := by
  simp [randInt]

theorem randInt_quarter : randInt 0 3 (1 / 4) = 1 := by
  unfold randInt
  norm_num

theorem randInt_twelfth : randInt 0 11 (1 / 12) = 1 := by
  unfold randInt
  norm_num

theorem selectIdx_step {n : ℕ} {idAt : ℕ → String} {last : Option String}
    {draws : ℕ → ℚ} {fuel i : ℕ}
    (hi : (randInt 0 ((n : ℤ) - 1) (draws 0)).toNat = i)
    (hcond : ¬(some (idAt i) = last ∧ 1 < n)) :
    selectIdx n idAt last draws 0 (fuel + 1) = some i := by
  rw [selectIdx, hi, if_neg hcond]

/-- Witness environment: MCQ branch, constant zero draws (selects entry 0). -/
def envM0 : CallEnv := { categoryDraw := 0, idxDraws := fun _ => 0, genDraws := fun _ => 0, now := 5 }

/-- Witness environment: MCQ branch, draws `1/12` (selects entry 1). -/
def envM1 : CallEnv :=
  { categoryDraw := 0, idxDraws := fun _ => 1 / 12, genDraws := fun _ => 0, now := 5 }

/-- Witness environment: numeric branch, constant zero draws (selects template 0). -/
def envN0 : CallEnv :=
  { categoryDraw := 3 / 5, idxDraws := fun _ => 0, genDraws := fun _ => 0, now := 5 }

/-- Witness environment: numeric branch, index draws `1/4` (selects template 1). -/
def envN1 : CallEnv :=
  { categoryDraw := 3 / 5, idxDraws := fun _ => 1 / 4, genDraws := fun _ => 0, now := 5 }

theorem envM0_valid : envM0.valid := by
  refine ⟨⟨?_, ?_⟩, fun k => ⟨?_, ?_⟩, fun k => ⟨?_, ?_⟩⟩ <;> norm_num [envM0]

theorem envM1_valid : envM1.valid := by
  refine ⟨⟨?_, ?_⟩, fun k => ⟨?_, ?_⟩, fun k => ⟨?_, ?_⟩⟩ <;> norm_num [envM1]

theorem envN0_valid : envN0.valid := by
  refine ⟨⟨?_, ?_⟩, fun k => ⟨?_, ?_⟩, fun k => ⟨?_, ?_⟩⟩ <;> norm_num [envN0]

theorem envN1_valid : envN1.valid := by
  refine ⟨⟨?_, ?_⟩, fun k => ⟨?_, ?_⟩, fun k => ⟨?_, ?_⟩⟩ <;> norm_num [envN1]

/-- The pool entry `mcq-1` as a resolved question. -/
def rqMcq1 : ResolvedQuestion :=
  ResolvedQuestion.mcq "mcq-1" "If interest rates rise, what typically happens to bond prices?"
    ["They increase", "They decrease", "They stay the same", "They become volatile"] 1

/-- The pool entry `mcq-2` as a resolved question. -/
def rqMcq2 : ResolvedQuestion :=
  ResolvedQuestion.mcq "mcq-2" "What does \"diversification\" primarily help reduce?"
    ["Tax liability", "Unsystematic risk", "Inflation", "Transaction costs"] 1

theorem evalM0 {st : Option String} (hst : st ≠ some "mcq-1") :
    getNextQuestion envM0 1 st = some (rqMcq1, some "mcq-1") := by
  have hcat : envM0.categoryDraw < 6 / 10 := by norm_num [envM0]
  have hsel : selectIdx MCQ_POOL.length (fun j => (MCQ_POOL.getD j default).id) st
      envM0.idxDraws 0 1 = some 0 := by
    refine selectIdx_step ?_ ?_
    · show (randInt 0 ((MCQ_POOL.length : ℤ) - 1) 0).toNat = 0
      rw [randInt_zero]
      rfl
    · intro hc
      have h0 : (MCQ_POOL.getD 0 default).id = "mcq-1" := rfl
      rw [h0] at hc
      exact hst hc.1.symm
  unfold getNextQuestion getNextQuestionWith
  rw [if_pos hcat, hsel]
  rfl

theorem evalM1 {st : Option String} (hst : st ≠ some "mcq-2") :
    getNextQuestion envM1 1 st = some (rqMcq2, some "mcq-2") := by
  have hcat : envM1.categoryDraw < 6 / 10 := by norm_num [envM1]
  have hsel : selectIdx MCQ_POOL.length (fun j => (MCQ_POOL.getD j default).id) st
      envM1.idxDraws 0 1 = some 1 := by
    refine selectIdx_step ?_ ?_
    · show (randInt 0 ((MCQ_POOL.length : ℤ) - 1) (1 / 12)).toNat = 1
      have : (MCQ_POOL.length : ℤ) - 1 = 11 := rfl
      rw [this, randInt_twelfth]
      rfl
    · intro hc
      have h1 : (MCQ_POOL.getD 1 default).id = "mcq-2" := rfl
      rw [h1] at hc
      exact hst hc.1.symm
  unfold getNextQuestion getNextQuestionWith
  rw [if_pos hcat, hsel]
  rfl

/-- The resolved question produced by `num-compound-interest` under zero
draws at timestamp 5. -/
def rqNum0 : ResolvedQuestion :=
  ResolvedQuestion.numeric "num-compound-interest-5"
    "You invest $1,000 at 2% annual compound interest. How much will you have after 1 year?"
    1020 (51 / 5)

/-- The resolved question produced by `num-simple-interest` under zero
draws at timestamp 5. -/
def rqNum1 : ResolvedQuestion :=
  ResolvedQuestion.numeric "num-simple-interest-5"
    "You deposit $1,000 in an account earning 3% simple interest per year. What is the total amount after 1 year?"
    1030 (103 / 10)

theorem evalN0 {st : Option String} (hst : st ≠ some "num-compound-interest") :
    getNextQuestion envN0 1 st = some (rqNum0, some "num-compound-interest") := by
  have hcat : ¬(envN0.categoryDraw < 6 / 10) := by norm_num [envN0]
  have hsel : selectIdx NUMERIC_TEMPLATES.length
      (fun j => (NUMERIC_TEMPLATES.getD j default).id) st envN0.idxDraws 0 1 = some 0 := by
    refine selectIdx_step ?_ ?_
    · show (randInt 0 ((NUMERIC_TEMPLATES.length : ℤ) - 1) 0).toNat = 0
      rw [randInt_zero]
      rfl
    · intro hc
      have h0 : (NUMERIC_TEMPLATES.getD 0 default).id = "num-compound-interest" := rfl
      rw [h0] at hc
      exact hst hc.1.symm
  unfold getNextQuestion getNextQuestionWith
  rw [if_neg hcat, hsel]
  dsimp only
  have htemp : NUMERIC_TEMPLATES.getD 0 default = numCompoundInterest := rfl
  rw [htemp]
  have hgen : numCompoundInterest.generator envN0.genDraws = compoundInterestBody 1000 2 1 := by
    show compoundInterestBody (randInt 1 50 0 * 1000) (randInt 2 12 0) (randInt 1 10 0) = _
    rw [randInt_zero, randInt_zero, randInt_zero]
    norm_num
  rw [hgen]
  simp only [Option.some.injEq, Prod.mk.injEq, rqNum0]
  have hans : (compoundInterestBody 1000 2 1).correctAnswer = 1020 := by
    show round2 ((1000 : ℚ) * (1 + 2 / 100) ^ (1 : ℤ).toNat) = 1020
    norm_num [round2, jsRound]
  refine ⟨?_, rfl⟩
  have htol : (compoundInterestBody 1000 2 1).tolerance = some ((compoundInterestBody 1000 2 1).correctAnswer * (1 / 100)) := rfl
  rw [htol, Option.getD_some, hans]
  have hid : numCompoundInterest.id ++ "-" ++ Nat.repr envN0.now = "num-compound-interest-5" := by decide
  have htext : (compoundInterestBody 1000 2 1).questionText =
      "You invest $1,000 at 2% annual compound interest. How much will you have after 1 year?" := by
    decide
  rw [hid, htext]
  norm_num

theorem evalN1 {st : Option String} (hst : st ≠ some "num-simple-interest") :
    getNextQuestion envN1 1 st = some (rqNum1, some "num-simple-interest") := by
  have hcat : ¬(envN1.categoryDraw < 6 / 10) := by norm_num [envN1]
  have hsel : selectIdx NUMERIC_TEMPLATES.length
      (fun j => (NUMERIC_TEMPLATES.getD j default).id) st envN1.idxDraws 0 1 = some 1 := by
    refine selectIdx_step ?_ ?_
    · show (randInt 0 ((NUMERIC_TEMPLATES.length : ℤ) - 1) (1 / 4)).toNat = 1
      have h4 : (NUMERIC_TEMPLATES.length : ℤ) - 1 = 3 := rfl
      rw [h4, randInt_quarter]
      rfl
    · intro hc
      have h1 : (NUMERIC_TEMPLATES.getD 1 default).id = "num-simple-interest" := rfl
      rw [h1] at hc
      exact hst hc.1.symm
  unfold getNextQuestion getNextQuestionWith
  rw [if_neg hcat, hsel]
  dsimp only
  have htemp : NUMERIC_TEMPLATES.getD 1 default = numSimpleInterest := rfl
  rw [htemp]
  have hgen : numSimpleInterest.generator envN1.genDraws = simpleInterestBody 1000 3 1 := by
    show simpleInterestBody (randInt 1 20 0 * 1000) (randInt 3 10 0) (randInt 1 5 0) = _
    rw [randInt_zero, randInt_zero, randInt_zero]
    norm_num
  rw [hgen]
  simp only [Option.some.injEq, Prod.mk.injEq, rqNum1]
  have hans : (simpleInterestBody 1000 3 1).correctAnswer = 1030 := by
    show (1000 : ℚ) + round2 ((1000 : ℚ) * ((3 : ℚ) / 100) * (1 : ℚ)) = 1030
    norm_num [round2, jsRound]
  refine ⟨?_, rfl⟩
  have htol : (simpleInterestBody 1000 3 1).tolerance = some ((simpleInterestBody 1000 3 1).correctAnswer * (1 / 100)) := rfl
  rw [htol, Option.getD_some, hans]
  have hid : numSimpleInterest.id ++ "-" ++ Nat.repr envN1.now = "num-simple-interest-5" := by decide
  have htext : (simpleInterestBody 1000 3 1).questionText =
      "You deposit $1,000 in an account earning 3% simple interest per year. What is the total amount after 1 year?" := by
    decide
  rw [hid, htext]
  norm_num

/-- Environment sequence: two MCQ calls selecting entries 0 then 1. -/
def envsM : ℕ → CallEnv := fun j => if j = 0 then envM0 else envM1

/-- Environment sequence: numeric calls selecting templates 0, 1, 0, all
at the same timestamp. -/
def envsC1 : ℕ → CallEnv := fun j => if j = 1 then envN1 else envN0

theorem traceM : batchTrace envsM 1 none 2 =
    some [(rqMcq1, some "mcq-1"), (rqMcq2, some "mcq-2")] := by
  have h0 : getNextQuestion (envsM 0) 1 none = some (rqMcq1, some "mcq-1") := by
    have he : envsM 0 = envM0 := rfl
    rw [he]
    exact evalM0 (by simp)
  have h1 : getNextQuestion ((fun k => envsM (k + 1)) 0) 1 (some "mcq-1") =
      some (rqMcq2, some "mcq-2") := by
    have he : (fun k => envsM (k + 1)) 0 = envM1 := rfl
    rw [he]
    exact evalM1 (by simp)
  rw [batchTrace, h0]
  dsimp only
  rw [batchTrace, h1]
  dsimp only
  rw [batchTrace]

theorem traceC1 : batchTrace envsC1 1 none 3 =
    some [(rqNum0, some "num-compound-interest"), (rqNum1, some "num-simple-interest"),
      (rqNum0, some "num-compound-interest")] := by
  have h0 : getNextQuestion (envsC1 0) 1 none = some (rqNum0, some "num-compound-interest") := by
    have he : envsC1 0 = envN0 := rfl
    rw [he]
    exact evalN0 (by simp)
  have h1 : getNextQuestion ((fun k => envsC1 (k + 1)) 0) 1 (some "num-compound-interest") =
      some (rqNum1, some "num-simple-interest") := by
    have he : (fun k => envsC1 (k + 1)) 0 = envN1 := rfl
    rw [he]
    exact evalN1 (by decide)
  have h2 : getNextQuestion ((fun k => (fun k => envsC1 (k + 1)) (k + 1)) 0) 1
      (some "num-simple-interest") = some (rqNum0, some "num-compound-interest") := by
    have he : (fun k => (fun k => envsC1 (k + 1)) (k + 1)) 0 = envN0 := rfl
    rw [he]
    exact evalN0 (by decide)
  rw [batchTrace, h0]
  dsimp only
  rw [batchTrace, h1]
  dsimp only
  rw [batchTrace, h2]
  dsimp only
  rw [batchTrace]

-- ── Claim theorems ──────────────────────────────────────────────────────────

/-- C7: the formula evaluations are exact on the spec's test vectors:
compound interest at principal 1000, rate 10%, years 2 gives 1210.00;
simple interest at principal 1000, rate 5%, years 3 gives 1150.00; future
value at monthly 100, rate 12%, years 1 (r = 1/100, n = 12) gives 1268.25
under the 2-decimal rounding rule. -/
theorem c7_formula_exactness :
    (compoundInterestBody 1000 10 2).correctAnswer = 1210 ∧
    (simpleInterestBody 1000 5 3).correctAnswer = 1150 ∧
    (futureValueBody 100 12 1).correctAnswer = 126825 / 100 := by
  refine ⟨?_, ?_, ?_⟩
  · show round2 ((1000 : ℚ) * (1 + (10 : ℚ) / 100) ^ ((2 : ℤ)).toNat) = 1210
    have h2 : ((2 : ℤ)).toNat = 2 := rfl
    rw [h2]
    norm_num [round2, jsRound]
  · show (1000 : ℚ) + round2 ((1000 : ℚ) * ((5 : ℚ) / 100) * (3 : ℚ)) = 1150
    norm_num [round2, jsRound]
  · show round2 ((100 : ℚ) * (((1 + (12 : ℚ) / 100 / 12) ^ ((1 * 12 : ℤ)).toNat - 1) /
      ((12 : ℚ) / 100 / 12))) = 126825 / 100
    have h12 : ((1 * 12 : ℤ)).toNat = 12 := rfl
    rw [h12]
    norm_num [round2, jsRound]

/-- C5: a batch always holds exactly `count` questions (`Int.toNat` of the
count, which is `n` for every non-negative `n`), produced by sequential
`getNextQuestion` calls; `questionBatch 0` is empty and the declared
default count is 10. -/
theorem c5_batch_count :
    (∀ (envs : ℕ → CallEnv) (fuel : ℕ) (st : Option String) (count : ℤ),
      (getQuestionBatch envs fuel st count).map (fun p => p.1.length) =
        (getQuestionBatch envs fuel st count).map (fun _ => count.toNat)) ∧
    (∀ (envs : ℕ → CallEnv) (fuel : ℕ) (st : Option String) (n : ℕ),
      getQuestionBatch envs fuel st (n : ℤ) = getQuestionBatchAux envs fuel st n) ∧
    (∀ (envs : ℕ → CallEnv) (fuel : ℕ) (st : Option String),
      getQuestionBatch envs fuel st 0 = some ([], st)) ∧
    ∀ (envs : ℕ → CallEnv) (fuel : ℕ) (st : Option String),
      getQuestionBatchDefault envs fuel st = getQuestionBatch envs fuel st 10 := by
  refine ⟨?_, ?_, fun envs fuel st => rfl, fun envs fuel st => rfl⟩
  · intro envs fuel st count
    cases hb : getQuestionBatch envs fuel st count with
    | none => rfl
    | some p =>
      have := getQuestionBatchAux_length fuel count.toNat envs st p hb
      simp [this]
  · intro envs fuel st n
    show getQuestionBatchAux envs fuel st ((n : ℤ)).toNat = getQuestionBatchAux envs fuel st n
    have h : ((n : ℤ)).toNat = n := by omega
    rw [h]

/-- C8 counterexample: `getQuestionBatch(-1)` does not fail; it silently
returns the empty batch with the state unchanged. -/
theorem c8_counterexample :
    getQuestionBatch (fun _ => envM0) 1 none (-1) = some ([], none) := rfl

/-- C8 amended: a negative count is clamped — the `for` loop body never
runs, so the call silently returns an empty sequence (no error is
raised). -/
theorem c8_negative_clamps :
    ∀ (envs : ℕ → CallEnv) (fuel : ℕ) (st : Option String) (count : ℤ),
      count < 0 → getQuestionBatch envs fuel st count = some ([], st) := by
  intro envs fuel st count hc
  unfold getQuestionBatch
  have h : count.toNat = 0 := by omega
  rw [h]
  rfl

theorem c8_negative_clamps_witness :
    (-1 : ℤ) < 0 ∧ getQuestionBatch (fun _ => envM1) 1 none (-1) = some ([], none) :=
  ⟨by norm_num, c8_negative_clamps (fun _ => envM1) 1 none (-1) (by norm_num)⟩

/-- C9: with a single-entry pool and a single-entry template set, one unit
of loop fuel always suffices: the re-roll loops accept the first draw
(the `length > 1` test fails), so `getNextQuestion` terminates whatever
`lastServedId` holds. -/
theorem c9_singleton_terminates :
    ∀ (pool : List MCQQuestion) (templates : List GeneratedQuestionTemplate)
      (env : CallEnv) (st : Option String),
      pool.length = 1 → templates.length = 1 →
      (getNextQuestionWith pool templates env 1 st).isSome = true := by
  intro pool templates env st hp ht
  unfold getNextQuestionWith
  split
  · rw [hp]
    cases hsel : selectIdx 1 (fun j => (pool.getD j default).id) st env.idxDraws 0 1 with
    | none =>
      have hs := selectIdx_singleton (fun j => (pool.getD j default).id) st env.idxDraws 0 1
        (by norm_num)
      rw [hsel] at hs
      cases hs
    | some i => rfl
  · rw [ht]
    cases hsel : selectIdx 1 (fun j => (templates.getD j default).id) st env.idxDraws 0 1 with
    | none =>
      have hs := selectIdx_singleton (fun j => (templates.getD j default).id) st env.idxDraws 0 1
        (by norm_num)
      rw [hsel] at hs
      cases hs
    | some i => rfl

theorem c9_singleton_terminates_witness :
    (MCQ_POOL.take 1).length = 1 ∧ (NUMERIC_TEMPLATES.take 1).length = 1 ∧
    (getNextQuestionWith (MCQ_POOL.take 1) (NUMERIC_TEMPLATES.take 1) envM0 1
      (some "mcq-1")).isSome = true :=
  ⟨rfl, rfl,
    c9_singleton_terminates (MCQ_POOL.take 1) (NUMERIC_TEMPLATES.take 1) envM0
      (some "mcq-1") rfl rfl⟩

/-- C10: every shipped template's generator returns a defined tolerance
for every draw, so the `?? correctAnswer * 0.01` fallback in
`getNextQuestion` never runs for the shipped catalog: `Option.getD`
returns the generator's own value whatever the default. -/
theorem c10_generator_tolerance_defined :
    ∀ t ∈ NUMERIC_TEMPLATES, ∀ u : ℕ → ℚ, ∃ v : ℚ,
      (t.generator u).tolerance = some v ∧
      ∀ d : ℚ, (t.generator u).tolerance.getD d = v := by
  intro t ht u
  simp only [NUMERIC_TEMPLATES, List.mem_cons, List.not_mem_nil, or_false] at ht
  rcases ht with rfl | rfl | rfl | rfl <;> exact ⟨_, rfl, fun d => rfl⟩

theorem c10_generator_tolerance_defined_witness :
    numCompoundInterest ∈ NUMERIC_TEMPLATES ∧
    ∃ v : ℚ, (numCompoundInterest.generator (fun _ => 0)).tolerance = some v ∧
      ∀ d : ℚ, (numCompoundInterest.generator (fun _ => 0)).tolerance.getD d = v :=
  ⟨by simp [NUMERIC_TEMPLATES],
    c10_generator_tolerance_defined numCompoundInterest (by simp [NUMERIC_TEMPLATES])
      (fun _ => 0)⟩

/-- C6: for every rate drawn from `[2, 12]`, the Rule of 72 generator's
answer equals `72/rate` rounded to the nearest integer (the intermediate
`round2` never changes the result on this domain), and its tolerance is
exactly 1. -/
theorem c6_rule_of_72_rounding :
    ∀ u : ℕ → ℚ, unit01 (u 0) →
      (numRuleOf72.generator u).correctAnswer =
        (jsRound (72 / (randInt 2 12 (u 0) : ℚ)) : ℚ) ∧
      (numRuleOf72.generator u).tolerance = some 1 := by
  intro u hu
  obtain ⟨h0, h1⟩ := hu
  have hb := randInt_bounds h0 h1 (by norm_num : (2 : ℤ) ≤ 12)
  constructor
  · show (jsRound (round2 (72 / (randInt 2 12 (u 0) : ℚ))) : ℚ) =
      (jsRound (72 / (randInt 2 12 (u 0) : ℚ)) : ℚ)
    obtain ⟨h2, h12⟩ := hb
    set r := randInt 2 12 (u 0) with hr
    clear_value r
    interval_cases r <;> norm_num [round2, jsRound]
  · rfl

theorem c6_rule_of_72_rounding_witness :
    unit01 ((fun _ => (0 : ℚ)) 0) ∧
    ((numRuleOf72.generator (fun _ => 0)).correctAnswer =
        (jsRound (72 / (randInt 2 12 ((fun _ => (0 : ℚ)) 0) : ℚ)) : ℚ) ∧
      (numRuleOf72.generator (fun _ => 0)).tolerance = some 1) :=
  ⟨⟨le_refl 0, by norm_num⟩, c6_rule_of_72_rounding (fun _ => 0) ⟨le_refl 0, by norm_num⟩⟩

/-- C2: in every successfully produced batch, each question's underlying
source identifier (the value recorded in `lastQuestionId`: pool-entry id
or template id, not the synthesized per-instance numeric id) is defined,
and adjacent questions never share it — unconditionally here because both
shipped catalogs (12 pool entries, 4 templates) have more than one
entry. -/
theorem c2_no_adjacent_same_source :
    ∀ (envs : ℕ → CallEnv) (fuel : ℕ) (st : Option String) (n : ℕ)
      (tr : List (ResolvedQuestion × Option String)),
      batchTrace envs fuel st n = some tr →
      getQuestionBatchAux envs fuel st n = some (tr.map Prod.fst, finalState st tr) ∧
      (∀ i, i < tr.length → (tr.getD i default).2.isSome) ∧
      ∀ i, i + 1 < tr.length → (tr.getD i default).2 ≠ (tr.getD (i + 1) default).2 := by
  intro envs fuel st n tr h
  exact ⟨batchTrace_batch fuel n envs st tr h, (batchTrace_chain fuel n envs st tr h).1,
    (batchTrace_chain fuel n envs st tr h).2⟩

theorem c2_no_adjacent_same_source_witness :
    batchTrace envsM 1 none 2 = some [(rqMcq1, some "mcq-1"), (rqMcq2, some "mcq-2")] ∧
    ([(rqMcq1, some "mcq-1"), (rqMcq2, some "mcq-2")].getD 0 default).2 ≠
      ([(rqMcq1, some "mcq-1"), (rqMcq2, some "mcq-2")].getD 1 default).2 :=
  ⟨traceM, (c2_no_adjacent_same_source envsM 1 none 2
    [(rqMcq1, some "mcq-1"), (rqMcq2, some "mcq-2")] traceM).2.2 0 (by norm_num)⟩

-- ── Nonnegativity of generated answers (for C4) ─────────────────────────────

theorem round2_nonneg {x : ℚ} (hx : 0 ≤ x) : 0 ≤ round2 x := by
  unfold round2 jsRound
  have h : (0 : ℤ) ≤ ⌊x * 100 + 1 / 2⌋ := Int.le_floor.mpr (by push_cast; linarith)
  have h2 : (0 : ℚ) ≤ (⌊x * 100 + 1 / 2⌋ : ℚ) := by exact_mod_cast h
  exact div_nonneg h2 (by norm_num)

theorem compoundInterestBody_correct_nonneg {p r y : ℤ} (hp : 0 ≤ p) (hr : 0 ≤ r) :
    0 ≤ (compoundInterestBody p r y).correctAnswer := by
  show 0 ≤ round2 ((p : ℚ) * (1 + (r : ℚ) / 100) ^ y.toNat)
  refine round2_nonneg ?_
  have hpq : (0 : ℚ) ≤ (p : ℚ) := by exact_mod_cast hp
  have hrq : (0 : ℚ) ≤ (r : ℚ) := by exact_mod_cast hr
  have hbq : (0 : ℚ) ≤ 1 + (r : ℚ) / 100 := by linarith
  exact mul_nonneg hpq (pow_nonneg hbq _)

theorem simpleInterestBody_correct_nonneg {p r y : ℤ} (hp : 0 ≤ p) (hr : 0 ≤ r)
    (hy : 0 ≤ y) : 0 ≤ (simpleInterestBody p r y).correctAnswer := by
  show 0 ≤ (p : ℚ) + round2 ((p : ℚ) * ((r : ℚ) / 100) * (y : ℚ))
  have hpq : (0 : ℚ) ≤ (p : ℚ) := by exact_mod_cast hp
  have hrq : (0 : ℚ) ≤ (r : ℚ) := by exact_mod_cast hr
  have hyq : (0 : ℚ) ≤ (y : ℚ) := by exact_mod_cast hy
  have hin : 0 ≤ round2 ((p : ℚ) * ((r : ℚ) / 100) * (y : ℚ)) :=
    round2_nonneg (mul_nonneg (mul_nonneg hpq (by linarith)) hyq)
  linarith

theorem futureValueBody_correct_nonneg {m r y : ℤ} (hm : 0 ≤ m) (hr : 0 < r) :
    0 ≤ (futureValueBody m r y).correctAnswer := by
  show 0 ≤ round2 ((m : ℚ) * (((1 + (r : ℚ) / 100 / 12) ^ (y * 12).toNat - 1) /
    ((r : ℚ) / 100 / 12)))
  refine round2_nonneg ?_
  have hrq : (0 : ℚ) < (r : ℚ) := by exact_mod_cast hr
  have hrr : (0 : ℚ) < (r : ℚ) / 100 / 12 := by positivity
  have hpow : (1 : ℚ) ≤ (1 + (r : ℚ) / 100 / 12) ^ (y * 12).toNat := by
    calc (1 : ℚ) = 1 ^ (y * 12).toNat := (one_pow _).symm
      _ ≤ (1 + (r : ℚ) / 100 / 12) ^ (y * 12).toNat :=
          pow_le_pow_left₀ (by norm_num) (by linarith) _
  have hmq : (0 : ℚ) ≤ (m : ℚ) := by exact_mod_cast hm
  exact mul_nonneg hmq (div_nonneg (by linarith) hrr.le)

/-- Single-call form of the tolerance invariant: a numeric question
served by `getNextQuestion` has non-negative tolerance, equal to
`correctAnswer × 0.01` except under the `num-rule-of-72` override (1).
`src` is the template identifier recorded in `lastQuestionId`. -/
theorem nextQuestion_tolerance_form :
    ∀ (env : CallEnv) (fuel : ℕ) (st : Option String) (qid text : String)
      (ans tol : ℚ) (src : Option String), env.valid →
      getNextQuestion env fuel st = some (ResolvedQuestion.numeric qid text ans tol, src) →
      0 ≤ tol ∧ (src = some "num-rule-of-72" → tol = 1) ∧
        (src ≠ some "num-rule-of-72" → tol = ans * (1 / 100)) := by
  intro env fuel st qid text ans tol src hval h
  unfold getNextQuestion getNextQuestionWith at h
  split at h
  · cases hsel : selectIdx MCQ_POOL.length (fun j => (MCQ_POOL.getD j default).id) st
        env.idxDraws 0 fuel with
    | none => rw [hsel] at h; cases h
    | some i =>
      rw [hsel] at h
      simp at h
  · cases hsel : selectIdx NUMERIC_TEMPLATES.length
        (fun j => (NUMERIC_TEMPLATES.getD j default).id) st env.idxDraws 0 fuel with
    | none => rw [hsel] at h; cases h
    | some i =>
      rw [hsel] at h
      have hi : i < NUMERIC_TEMPLATES.length :=
        selectIdx_lt _ _ _ _ (by norm_num [NUMERIC_TEMPLATES]) hval.2.1 fuel 0 i hsel
      have hi4 : i < 4 := by simpa [NUMERIC_TEMPLATES] using hi
      dsimp only at h
      simp only [Option.some.injEq, Prod.mk.injEq, ResolvedQuestion.numeric.injEq] at h
      obtain ⟨⟨hqid, htext, hans, htol⟩, hsrc⟩ := h
      interval_cases i
      · have hT : NUMERIC_TEMPLATES.getD 0 default = numCompoundInterest := rfl
        rw [hT] at hans htol hsrc
        have hform : (numCompoundInterest.generator env.genDraws).tolerance =
            some ((numCompoundInterest.generator env.genDraws).correctAnswer * (1 / 100)) := rfl
        rw [hform, Option.getD_some] at htol
        subst hsrc
        have hnn : 0 ≤ (numCompoundInterest.generator env.genDraws).correctAnswer := by
          show 0 ≤ (compoundInterestBody (randInt 1 50 (env.genDraws 0) * 1000)
            (randInt 2 12 (env.genDraws 1)) (randInt 1 10 (env.genDraws 2))).correctAnswer
          refine compoundInterestBody_correct_nonneg ?_ ?_
          · have := (randInt_bounds (hval.2.2 0).1 (hval.2.2 0).2
              (by norm_num : (1 : ℤ) ≤ 50)).1
            omega
          · have := (randInt_bounds (hval.2.2 1).1 (hval.2.2 1).2
              (by norm_num : (2 : ℤ) ≤ 12)).1
            omega
        refine ⟨?_, ?_, ?_⟩
        · rw [← htol]
          linarith
        · intro hEq
          exact absurd hEq (by decide)
        · intro _
          rw [← htol, ← hans]
      · have hT : NUMERIC_TEMPLATES.getD 1 default = numSimpleInterest := rfl
        rw [hT] at hans htol hsrc
        have hform : (numSimpleInterest.generator env.genDraws).tolerance =
            some ((numSimpleInterest.generator env.genDraws).correctAnswer * (1 / 100)) := rfl
        rw [hform, Option.getD_some] at htol
        subst hsrc
        have hnn : 0 ≤ (numSimpleInterest.generator env.genDraws).correctAnswer := by
          show 0 ≤ (simpleInterestBody (randInt 1 20 (env.genDraws 0) * 1000)
            (randInt 3 10 (env.genDraws 1)) (randInt 1 5 (env.genDraws 2))).correctAnswer
          refine simpleInterestBody_correct_nonneg ?_ ?_ ?_
          · have := (randInt_bounds (hval.2.2 0).1 (hval.2.2 0).2
              (by norm_num : (1 : ℤ) ≤ 20)).1
            omega
          · have := (randInt_bounds (hval.2.2 1).1 (hval.2.2 1).2
              (by norm_num : (3 : ℤ) ≤ 10)).1
            omega
          · have := (randInt_bounds (hval.2.2 2).1 (hval.2.2 2).2
              (by norm_num : (1 : ℤ) ≤ 5)).1
            omega
        refine ⟨?_, ?_, ?_⟩
        · rw [← htol]
          linarith
        · intro hEq
          exact absurd hEq (by decide)
        · intro _
          rw [← htol, ← hans]
      · have hT : NUMERIC_TEMPLATES.getD 2 default = numRuleOf72 := rfl
        rw [hT] at hans htol hsrc
        have hform : (numRuleOf72.generator env.genDraws).tolerance = some 1 := rfl
        rw [hform, Option.getD_some] at htol
        subst hsrc
        refine ⟨?_, fun _ => htol.symm, ?_⟩
        · rw [← htol]
          norm_num
        · intro hne
          exact absurd rfl hne
      · have hT : NUMERIC_TEMPLATES.getD 3 default = numFutureValueAnnuity := rfl
        rw [hT] at hans htol hsrc
        have hform : (numFutureValueAnnuity.generator env.genDraws).tolerance =
            some ((numFutureValueAnnuity.generator env.genDraws).correctAnswer * (1 / 100)) := rfl
        rw [hform, Option.getD_some] at htol
        subst hsrc
        have hnn : 0 ≤ (numFutureValueAnnuity.generator env.genDraws).correctAnswer := by
          show 0 ≤ (futureValueBody (randInt 1 10 (env.genDraws 0) * 100)
            (randInt 4 10 (env.genDraws 1)) (randInt 2 10 (env.genDraws 2))).correctAnswer
          refine futureValueBody_correct_nonneg ?_ ?_
          · have := (randInt_bounds (hval.2.2 0).1 (hval.2.2 0).2
              (by norm_num : (1 : ℤ) ≤ 10)).1
            omega
          · have := (randInt_bounds (hval.2.2 1).1 (hval.2.2 1).2
              (by norm_num : (4 : ℤ) ≤ 10)).1
            omega
        refine ⟨?_, ?_, ?_⟩
        · rw [← htol]
          linarith
        · intro hEq
          exact absurd hEq (by decide)
        · intro _
          rw [← htol, ← hans]

/-- C4: every numeric question, whether returned by a single
`getNextQuestion` call or appearing in a batch, has a non-negative
tolerance; the tolerance is `correctAnswer × 0.01` for every template
except `num-rule-of-72`, whose explicit override makes it exactly 1
(the source identifier recorded in `lastQuestionId` names the
template). -/
theorem c4_tolerance_invariant :
    (∀ (env : CallEnv) (fuel : ℕ) (st : Option String) (qid text : String)
      (ans tol : ℚ) (src : Option String), env.valid →
      getNextQuestion env fuel st = some (ResolvedQuestion.numeric qid text ans tol, src) →
      0 ≤ tol ∧ (src = some "num-rule-of-72" → tol = 1) ∧
        (src ≠ some "num-rule-of-72" → tol = ans * (1 / 100))) ∧
    ∀ (envs : ℕ → CallEnv) (fuel : ℕ) (st : Option String) (n : ℕ)
      (tr : List (ResolvedQuestion × Option String)), (∀ k, (envs k).valid) →
      batchTrace envs fuel st n = some tr →
      ∀ e ∈ tr, ∀ (qid text : String) (ans tol : ℚ),
        e.1 = ResolvedQuestion.numeric qid text ans tol →
        0 ≤ tol ∧ (e.2 = some "num-rule-of-72" → tol = 1) ∧
          (e.2 ≠ some "num-rule-of-72" → tol = ans * (1 / 100)) := by
  refine ⟨nextQuestion_tolerance_form, ?_⟩
  intro envs fuel st n
  induction n generalizing envs st with
  | zero =>
    intro tr _ h e he
    rw [batchTrace] at h
    cases h
    cases he
  | succ m ih =>
    intro tr hv h e he qid text ans tol heq
    rw [batchTrace] at h
    cases hq : getNextQuestion (envs 0) fuel st with
    | none => rw [hq] at h; cases h
    | some qs1 =>
      rw [hq] at h
      obtain ⟨q, st1⟩ := qs1
      cases hrest : batchTrace (fun k => envs (k + 1)) fuel st1 m with
      | none => simp [hrest] at h
      | some tr2 =>
        simp only [hrest] at h
        cases h
        rcases List.mem_cons.mp he with rfl | hmem
        · simp only at heq
          subst heq
          exact nextQuestion_tolerance_form (envs 0) fuel st qid text ans tol st1
            (hv 0) hq
        · exact ih (fun k => envs (k + 1)) st1 tr2 (fun k => hv (k + 1)) hrest e hmem
            qid text ans tol heq

theorem c4_tolerance_invariant_witness :
    envN0.valid ∧
    (0 ≤ (51 / 5 : ℚ) ∧
      (some "num-compound-interest" = some "num-rule-of-72" → (51 / 5 : ℚ) = 1) ∧
      (some "num-compound-interest" ≠ some "num-rule-of-72" →
        (51 / 5 : ℚ) = 1020 * (1 / 100))) :=
  ⟨envN0_valid,
    c4_tolerance_invariant.1 envN0 1 none "num-compound-interest-5"
      "You invest $1,000 at 2% annual compound interest. How much will you have after 1 year?"
      1020 (51 / 5) (some "num-compound-interest") envN0_valid (evalN0 (by simp))⟩

-- ── C1: numeric identifier synthesis ────────────────────────────────────────

theorem numeric_id_format {pool : List MCQQuestion}
    {templates : List GeneratedQuestionTemplate} {env : CallEnv} {fuel : ℕ}
    {st : Option String} {qid text : String} {ans tol : ℚ} {src : Option String}
    (h : getNextQuestionWith pool templates env fuel st =
      some (ResolvedQuestion.numeric qid text ans tol, src)) :
    ∃ tid, src = some tid ∧ qid = tid ++ "-" ++ Nat.repr env.now := by
  unfold getNextQuestionWith at h
  split at h
  · cases hsel : selectIdx pool.length (fun j => (pool.getD j default).id) st
        env.idxDraws 0 fuel with
    | none => rw [hsel] at h; cases h
    | some i =>
      rw [hsel] at h
      simp at h
  · cases hsel : selectIdx templates.length (fun j => (templates.getD j default).id) st
        env.idxDraws 0 fuel with
    | none => rw [hsel] at h; cases h
    | some i =>
      rw [hsel] at h
      dsimp only at h
      simp only [Option.some.injEq, Prod.mk.injEq, ResolvedQuestion.numeric.injEq] at h
      obtain ⟨⟨hqid, _, _, _⟩, hsrc⟩ := h
      exact ⟨(templates.getD i default).id, hsrc.symm, hqid.symm⟩

/-- The expected trace of the C1 counterexample batch: templates 0, 1, 0,
all generated at the same timestamp. -/
def c1TraceVal : List (ResolvedQuestion × Option String) :=
  [(rqNum0, some "num-compound-interest"), (rqNum1, some "num-simple-interest"),
    (rqNum0, some "num-compound-interest")]

/-- C1 counterexample: a batch of three questions in which positions 0
and 2 are numeric questions derived from the same template (equal source
identifiers) generated in the same millisecond — their synthesized
identifiers are equal, so the synthesis does not guarantee uniqueness
within a batch. -/
theorem c1_counterexample :
    batchTrace envsC1 1 none 3 = some c1TraceVal ∧
    (c1TraceVal.getD 0 default).2 = (c1TraceVal.getD 2 default).2 ∧
    (c1TraceVal.getD 0 default).1.isNumeric = true ∧
    (c1TraceVal.getD 2 default).1.isNumeric = true ∧
    (c1TraceVal.getD 0 default).1.qid = (c1TraceVal.getD 2 default).1.qid :=
  ⟨traceC1, rfl, rfl, rfl, rfl⟩

/-- C1 amended: every numeric question's identifier is synthesized as
`<templateId>-<Date.now()>`; two numeric questions from the same template
have distinct identifiers when their generation timestamps differ (same
millisecond collisions break uniqueness, see the counterexample). -/
theorem c1_identifier_synthesis :
    ∀ (pool : List MCQQuestion) (templates : List GeneratedQuestionTemplate)
      (env : CallEnv) (fuel : ℕ) (st : Option String) (qid text : String)
      (ans tol : ℚ) (src : Option String),
      getNextQuestionWith pool templates env fuel st =
        some (ResolvedQuestion.numeric qid text ans tol, src) →
      (∃ tid, src = some tid ∧ qid = tid ++ "-" ++ Nat.repr env.now) ∧
      ∀ (env2 : CallEnv) (fuel2 : ℕ) (st2 : Option String) (qid2 text2 : String)
        (ans2 tol2 : ℚ),
        getNextQuestionWith pool templates env2 fuel2 st2 =
          some (ResolvedQuestion.numeric qid2 text2 ans2 tol2, src) →
        env.now ≠ env2.now → qid ≠ qid2 := by
  intro pool templates env fuel st qid text ans tol src h
  obtain ⟨tid, hsrc, hqid⟩ := numeric_id_format h
  refine ⟨⟨tid, hsrc, hqid⟩, ?_⟩
  intro env2 fuel2 st2 qid2 text2 ans2 tol2 h2 hnow hEq
  obtain ⟨tid2, hsrc2, hqid2⟩ := numeric_id_format h2
  have htid : tid = tid2 := by
    rw [hsrc] at hsrc2
    exact Option.some.inj hsrc2
  subst htid
  rw [hqid, hqid2] at hEq
  have hrep : Nat.repr env.now = Nat.repr env2.now := strAppend_left_cancel hEq
  exact hnow (natRepr_injective hrep)

theorem c1_identifier_synthesis_witness :
    getNextQuestionWith MCQ_POOL NUMERIC_TEMPLATES envN0 1 none =
      some (rqNum0, some "num-compound-interest") ∧
    (∃ tid, (some "num-compound-interest" : Option String) = some tid ∧
      "num-compound-interest-5" = tid ++ "-" ++ Nat.repr envN0.now) ∧
    ∀ (env2 : CallEnv) (fuel2 : ℕ) (st2 : Option String) (qid2 text2 : String)
      (ans2 tol2 : ℚ),
      getNextQuestionWith MCQ_POOL NUMERIC_TEMPLATES env2 fuel2 st2 =
        some (ResolvedQuestion.numeric qid2 text2 ans2 tol2,
          some "num-compound-interest") →
      envN0.now ≠ env2.now → "num-compound-interest-5" ≠ qid2 :=
  ⟨evalN0 (by simp),
    c1_identifier_synthesis MCQ_POOL NUMERIC_TEMPLATES envN0 1 none
      "num-compound-interest-5"
      "You invest $1,000 at 2% annual compound interest. How much will you have after 1 year?"
      1020 (51 / 5) (some "num-compound-interest") (evalN0 (by simp))⟩

-- ── C3: question text embedding ─────────────────────────────────────────────

theorem strAppend_assoc (a b c : String) : a ++ b ++ c = a ++ (b ++ c) := by
  apply String.ext
  simp [String.data_append, List.append_assoc]

theorem strContains_of_eq (t a b c : String) (h : t = a ++ b ++ c) :
    strContains t b = true := by
  subst h
  unfold strContains
  simp only [String.data_append]
  rw [List.append_assoc]
  exact occursChars_append_right a.data (occursChars_front1 b.data c.data)

theorem compound_gen_eq (u : ℕ → ℚ) : numCompoundInterest.generator u =
    compoundInterestBody (randInt 1 50 (u 0) * 1000) (randInt 2 12 (u 1))
      (randInt 1 10 (u 2)) := rfl

theorem simple_gen_eq (u : ℕ → ℚ) : numSimpleInterest.generator u =
    simpleInterestBody (randInt 1 20 (u 0) * 1000) (randInt 3 10 (u 1))
      (randInt 1 5 (u 2)) := rfl

theorem rule72_gen_eq (u : ℕ → ℚ) : numRuleOf72.generator u =
    ruleOf72Body (randInt 2 12 (u 0)) := rfl

theorem fv_gen_eq (u : ℕ → ℚ) : numFutureValueAnnuity.generator u =
    futureValueBody (randInt 1 10 (u 0) * 100) (randInt 4 10 (u 1))
      (randInt 2 10 (u 2)) := rfl

theorem compound_text_eq (p r y : ℤ) : (compoundInterestBody p r y).questionText =
    "You invest $" ++ toLocaleString p.toNat ++ " at " ++ Int.repr r ++
      "% annual compound interest. How much will you have after " ++ Int.repr y ++
      " year" ++ (if 1 < y then "s" else "") ++ "?" := rfl

theorem simple_text_eq (p r y : ℤ) : (simpleInterestBody p r y).questionText =
    "You deposit $" ++ toLocaleString p.toNat ++ " in an account earning " ++
      Int.repr r ++ "% simple interest per year. What is the total amount after " ++
      Int.repr y ++ " year" ++ (if 1 < y then "s" else "") ++ "?" := rfl

theorem rule72_text_eq (r : ℤ) : (ruleOf72Body r).questionText =
    "Using the Rule of 72, approximately how many years will it take to double your money at a " ++
      Int.repr r ++ "% annual return? (Round to the nearest whole number)" := rfl

theorem fv_text_eq (m r y : ℤ) : (futureValueBody m r y).questionText =
    "You save $" ++ Int.repr m ++ " per month for " ++ Int.repr y ++
      " years at " ++ Int.repr r ++
      "% annual interest (compounded monthly). What is the total future value?" := rfl

/-- The draw oracle of the C3 counterexample: first draw `9/10` (so the
monthly amount is `10 × 100 = 1000`), all further draws zero. -/
def c3u : ℕ → ℚ := fun k => if k = 0 then 9 / 10 else 0

/-- C3 counterexample: the future-value generator can draw monthly =
1000, a dollar amount whose locale rendering is "1,000", yet its question
text interpolates it without a thousands separator ("$1000"). -/
theorem c3_counterexample :
    unit01 (c3u 0) ∧ unit01 (c3u 1) ∧ unit01 (c3u 2) ∧
    toLocaleString 1000 = "1,000" ∧
    strContains (numFutureValueAnnuity.generator c3u).questionText "$1000" = true ∧
    strContains (numFutureValueAnnuity.generator c3u).questionText "1,000" = false := by
  have hgen : numFutureValueAnnuity.generator c3u = futureValueBody 1000 4 2 := by
    rw [fv_gen_eq]
    have h0 : c3u 0 = 9 / 10 := rfl
    have h1 : c3u 1 = 0 := rfl
    have h2 : c3u 2 = 0 := rfl
    rw [h0, h1, h2, randInt_zero, randInt_zero]
    have hm : randInt 1 10 (9 / 10) = 10 := by
      unfold randInt
      norm_num
    rw [hm]
    norm_num
  rw [hgen]
  refine ⟨⟨by norm_num [c3u], by norm_num [c3u]⟩, ⟨by norm_num [c3u], by norm_num [c3u]⟩,
    ⟨by norm_num [c3u], by norm_num [c3u]⟩, by decide, by decide, by decide⟩

/-- C3 amended: each generator embeds its sampled parameters verbatim in
the question text (principal, rate and years for the interest templates;
rate for Rule of 72, its only parameter; monthly, years and rate for the
future-value template); the compound- and simple-interest principals are
rendered with thousands separators, but the future-value monthly amount
is interpolated plainly — on its domain this differs from the locale
rendering exactly when monthly = 1000; the word "year" is used when the
sampled years equals 1 and "years" otherwise in the templates that
pluralise (the future-value years, drawn from [2,10], always reads
"years"). -/
theorem c3_text_embedding :
    ∀ u : ℕ → ℚ, (∀ k, unit01 (u k)) →
      (strContains (numCompoundInterest.generator u).questionText
          ("$" ++ toLocaleString (randInt 1 50 (u 0) * 1000).toNat) = true ∧
        strContains (numCompoundInterest.generator u).questionText
          (Int.repr (randInt 2 12 (u 1)) ++ "%") = true ∧
        ∃ pre, (numCompoundInterest.generator u).questionText =
          pre ++ Int.repr (randInt 1 10 (u 2)) ++ " year" ++
            (if randInt 1 10 (u 2) = 1 then "" else "s") ++ "?") ∧
      (strContains (numSimpleInterest.generator u).questionText
          ("$" ++ toLocaleString (randInt 1 20 (u 0) * 1000).toNat) = true ∧
        strContains (numSimpleInterest.generator u).questionText
          (Int.repr (randInt 3 10 (u 1)) ++ "%") = true ∧
        ∃ pre, (numSimpleInterest.generator u).questionText =
          pre ++ Int.repr (randInt 1 5 (u 2)) ++ " year" ++
            (if randInt 1 5 (u 2) = 1 then "" else "s") ++ "?") ∧
      strContains (numRuleOf72.generator u).questionText
        (Int.repr (randInt 2 12 (u 0)) ++ "%") = true ∧
      (strContains (numFutureValueAnnuity.generator u).questionText
          ("$" ++ Int.repr (randInt 1 10 (u 0) * 100)) = true ∧
        strContains (numFutureValueAnnuity.generator u).questionText
          (Int.repr (randInt 2 10 (u 2)) ++ " years") = true ∧
        strContains (numFutureValueAnnuity.generator u).questionText
          (Int.repr (randInt 4 10 (u 1)) ++ "%") = true ∧
        (toLocaleString (randInt 1 10 (u 0) * 100).toNat =
            Int.repr (randInt 1 10 (u 0) * 100) ↔
          randInt 1 10 (u 0) * 100 ≠ 1000)) := by
  intro u hu
  refine ⟨⟨?_, ?_, ?_⟩, ⟨?_, ?_, ?_⟩, ?_, ⟨?_, ?_, ?_, ?_⟩⟩
  · rw [compound_gen_eq, compound_text_eq]
    refine strContains_of_eq _ "You invest "
      ("$" ++ toLocaleString (randInt 1 50 (u 0) * 1000).toNat)
      (" at " ++ Int.repr (randInt 2 12 (u 1)) ++
        "% annual compound interest. How much will you have after " ++
        Int.repr (randInt 1 10 (u 2)) ++ " year" ++
        (if 1 < randInt 1 10 (u 2) then "s" else "") ++ "?") ?_
    rw [show ("You invest $" : String) = "You invest " ++ "$" from rfl]
    simp only [strAppend_assoc]
  · rw [compound_gen_eq, compound_text_eq]
    refine strContains_of_eq _
      ("You invest $" ++ toLocaleString (randInt 1 50 (u 0) * 1000).toNat ++ " at ")
      (Int.repr (randInt 2 12 (u 1)) ++ "%")
      (" annual compound interest. How much will you have after " ++
        Int.repr (randInt 1 10 (u 2)) ++ " year" ++
        (if 1 < randInt 1 10 (u 2) then "s" else "") ++ "?") ?_
    rw [show ("% annual compound interest. How much will you have after " : String) =
      "%" ++ " annual compound interest. How much will you have after " from rfl]
    simp only [strAppend_assoc]
  · rw [compound_gen_eq, compound_text_eq]
    have hy1 : 1 ≤ randInt 1 10 (u 2) :=
      (randInt_bounds (hu 2).1 (hu 2).2 (by norm_num : (1 : ℤ) ≤ 10)).1
    have hS : (if 1 < randInt 1 10 (u 2) then "s" else "") =
        (if randInt 1 10 (u 2) = 1 then "" else "s") := by
      by_cases hy : randInt 1 10 (u 2) = 1
      · simp [hy]
      · have hlt : 1 < randInt 1 10 (u 2) := lt_of_le_of_ne hy1 (Ne.symm hy)
        simp [hlt, hy]
    refine ⟨"You invest $" ++ toLocaleString (randInt 1 50 (u 0) * 1000).toNat ++ " at " ++
      Int.repr (randInt 2 12 (u 1)) ++
      "% annual compound interest. How much will you have after ", ?_⟩
    rw [← hS]
  · rw [simple_gen_eq, simple_text_eq]
    refine strContains_of_eq _ "You deposit "
      ("$" ++ toLocaleString (randInt 1 20 (u 0) * 1000).toNat)
      (" in an account earning " ++ Int.repr (randInt 3 10 (u 1)) ++
        "% simple interest per year. What is the total amount after " ++
        Int.repr (randInt 1 5 (u 2)) ++ " year" ++
        (if 1 < randInt 1 5 (u 2) then "s" else "") ++ "?") ?_
    rw [show ("You deposit $" : String) = "You deposit " ++ "$" from rfl]
    simp only [strAppend_assoc]
  · rw [simple_gen_eq, simple_text_eq]
    refine strContains_of_eq _
      ("You deposit $" ++ toLocaleString (randInt 1 20 (u 0) * 1000).toNat ++
        " in an account earning ")
      (Int.repr (randInt 3 10 (u 1)) ++ "%")
      (" simple interest per year. What is the total amount after " ++
        Int.repr (randInt 1 5 (u 2)) ++ " year" ++
        (if 1 < randInt 1 5 (u 2) then "s" else "") ++ "?") ?_
    rw [show ("% simple interest per year. What is the total amount after " : String) =
      "%" ++ " simple interest per year. What is the total amount after " from rfl]
    simp only [strAppend_assoc]
  · rw [simple_gen_eq, simple_text_eq]
    have hy1 : 1 ≤ randInt 1 5 (u 2) :=
      (randInt_bounds (hu 2).1 (hu 2).2 (by norm_num : (1 : ℤ) ≤ 5)).1
    have hS : (if 1 < randInt 1 5 (u 2) then "s" else "") =
        (if randInt 1 5 (u 2) = 1 then "" else "s") := by
      by_cases hy : randInt 1 5 (u 2) = 1
      · simp [hy]
      · have hlt : 1 < randInt 1 5 (u 2) := lt_of_le_of_ne hy1 (Ne.symm hy)
        simp [hlt, hy]
    refine ⟨"You deposit $" ++ toLocaleString (randInt 1 20 (u 0) * 1000).toNat ++
      " in an account earning " ++ Int.repr (randInt 3 10 (u 1)) ++
      "% simple interest per year. What is the total amount after ", ?_⟩
    rw [← hS]
  · rw [rule72_gen_eq, rule72_text_eq]
    refine strContains_of_eq _
      "Using the Rule of 72, approximately how many years will it take to double your money at a "
      (Int.repr (randInt 2 12 (u 0)) ++ "%")
      " annual return? (Round to the nearest whole number)" ?_
    rw [show ("% annual return? (Round to the nearest whole number)" : String) =
      "%" ++ " annual return? (Round to the nearest whole number)" from rfl]
    simp only [strAppend_assoc]
  · rw [fv_gen_eq, fv_text_eq]
    refine strContains_of_eq _ "You save "
      ("$" ++ Int.repr (randInt 1 10 (u 0) * 100))
      (" per month for " ++ Int.repr (randInt 2 10 (u 2)) ++ " years at " ++
        Int.repr (randInt 4 10 (u 1)) ++
        "% annual interest (compounded monthly). What is the total future value?") ?_
    rw [show ("You save $" : String) = "You save " ++ "$" from rfl]
    simp only [strAppend_assoc]
  · rw [fv_gen_eq, fv_text_eq]
    refine strContains_of_eq _
      ("You save $" ++ Int.repr (randInt 1 10 (u 0) * 100) ++ " per month for ")
      (Int.repr (randInt 2 10 (u 2)) ++ " years")
      (" at " ++ Int.repr (randInt 4 10 (u 1)) ++
        "% annual interest (compounded monthly). What is the total future value?") ?_
    rw [show (" years at " : String) = " years" ++ " at " from rfl]
    simp only [strAppend_assoc]
  · rw [fv_gen_eq, fv_text_eq]
    refine strContains_of_eq _
      ("You save $" ++ Int.repr (randInt 1 10 (u 0) * 100) ++ " per month for " ++
        Int.repr (randInt 2 10 (u 2)) ++ " years at ")
      (Int.repr (randInt 4 10 (u 1)) ++ "%")
      (" annual interest (compounded monthly). What is the total future value?") ?_
    rw [show ("% annual interest (compounded monthly). What is the total future value?" : String) =
      "%" ++ " annual interest (compounded monthly). What is the total future value?" from rfl]
    simp only [strAppend_assoc]
  · obtain ⟨h1, h10⟩ := randInt_bounds (hu 0).1 (hu 0).2 (by norm_num : (1 : ℤ) ≤ 10)
    set k := randInt 1 10 (u 0) with hkdef
    clear_value k
    interval_cases k <;> decide

/-- All-zero draw oracle, a valid `Math.random()` sequence. -/
def zeroDraws : ℕ → ℚ := fun _ => 0

theorem c3_text_embedding_witness :
    (∀ k, unit01 (zeroDraws k)) ∧
    ((strContains (numCompoundInterest.generator zeroDraws).questionText
          ("$" ++ toLocaleString (randInt 1 50 (zeroDraws 0) * 1000).toNat) = true ∧
        strContains (numCompoundInterest.generator zeroDraws).questionText
          (Int.repr (randInt 2 12 (zeroDraws 1)) ++ "%") = true ∧
        ∃ pre, (numCompoundInterest.generator zeroDraws).questionText =
          pre ++ Int.repr (randInt 1 10 (zeroDraws 2)) ++ " year" ++
            (if randInt 1 10 (zeroDraws 2) = 1 then "" else "s") ++ "?") ∧
      (strContains (numSimpleInterest.generator zeroDraws).questionText
          ("$" ++ toLocaleString (randInt 1 20 (zeroDraws 0) * 1000).toNat) = true ∧
        strContains (numSimpleInterest.generator zeroDraws).questionText
          (Int.repr (randInt 3 10 (zeroDraws 1)) ++ "%") = true ∧
        ∃ pre, (numSimpleInterest.generator zeroDraws).questionText =
          pre ++ Int.repr (randInt 1 5 (zeroDraws 2)) ++ " year" ++
            (if randInt 1 5 (zeroDraws 2) = 1 then "" else "s") ++ "?") ∧
      strContains (numRuleOf72.generator zeroDraws).questionText
        (Int.repr (randInt 2 12 (zeroDraws 0)) ++ "%") = true ∧
      (strContains (numFutureValueAnnuity.generator zeroDraws).questionText
          ("$" ++ Int.repr (randInt 1 10 (zeroDraws 0) * 100)) = true ∧
        strContains (numFutureValueAnnuity.generator zeroDraws).questionText
          (Int.repr (randInt 2 10 (zeroDraws 2)) ++ " years") = true ∧
        strContains (numFutureValueAnnuity.generator zeroDraws).questionText
          (Int.repr (randInt 4 10 (zeroDraws 1)) ++ "%") = true ∧
        (toLocaleString (randInt 1 10 (zeroDraws 0) * 100).toNat =
            Int.repr (randInt 1 10 (zeroDraws 0) * 100) ↔
          randInt 1 10 (zeroDraws 0) * 100 ≠ 1000))) :=
  ⟨fun k => ⟨le_refl 0, by norm_num [zeroDraws]⟩,
    c3_text_embedding zeroDraws (fun k => ⟨le_refl 0, by norm_num [zeroDraws]⟩)⟩
